import Mathlib

/-!
Verification of `robosuite/controllers/base_controller.py` (class `Controller`).

The Python source is embedded shallowly over `ℚ` (exact arithmetic): numpy
arrays become `Fin n → ℚ` or `List ℚ`, the mutable instance attributes that a
method reads and writes become explicit state structures, and fallible code
returns `Option`.  External collaborators (the mujoco backend, and the
`robosuite.utils.transform_utils` helpers `mat2euler`,
`Rotation_Matrix_To_Vector`, `Axis2Vector`, which are not part of the file
under verification) are passed in as parameters.
-/

namespace BaseController

/-- The per-axis quintic position law of `built_next_desired_point`
(lines 336-341):
`(final - init) / T^3 * (6 t^5 / T^2 - 15 t^4 / T + 10 t^3) + init`. -/
def x_traj (init fin T t : ℚ) : ℚ :=
  (fin - init) / T ^ 3 * (6 * t ^ 5 / T ^ 2 - 15 * t ^ 4 / T + 10 * t ^ 3) + init

/-- The per-axis velocity law of `built_next_desired_point` (lines 345-350):
`(final - init) / T^3 * (30 t^4 / T^2 - 60 t^3 / T + 30 t^2)`. -/
def v_traj (init fin T t : ℚ) : ℚ :=
  (fin - init) / T ^ 3 * (30 * t ^ 4 / T ^ 2 - 60 * t ^ 3 / T + 30 * t ^ 2)

/-- The per-axis acceleration law of `built_next_desired_point`
(lines 354-359):
`(final - init) / T^3 * (120 t^3 / T^2 - 180 t^2 / T + 60 t)`. -/
def a_traj (init fin T t : ℚ) : ℚ :=
  (fin - init) / T ^ 3 * (120 * t ^ 3 / T ^ 2 - 180 * t ^ 2 / T + 60 * t)

/-- The normalized quintic blending polynomial of the specification,
`s(t) = 6 (t/T)^5 - 15 (t/T)^4 + 10 (t/T)^3`. -/
def sBlend (T t : ℚ) : ℚ :=
  6 * (t / T) ^ 5 - 15 * (t / T) ^ 4 + 10 * (t / T) ^ 3

/-- The time derivative of `sBlend`:
`s'(t) = 30 t^4 / T^5 - 60 t^3 / T^4 + 30 t^2 / T^3`. -/
def sBlendDeriv (T t : ℚ) : ℚ :=
  30 * t ^ 4 / T ^ 5 - 60 * t ^ 3 / T ^ 4 + 30 * t ^ 2 / T ^ 3

/-- The orientation interpolation method tag (`self.method`, compared against
the string literals `'rotation'` and `'euler'`). -/
inductive OriMethod where
  | euler
  | rotation
deriving DecidableEq

/-- The instance attributes of `Controller` written by `built_min_jerk_traj`
and read by `built_next_desired_point`. -/
structure TrajState where
  X_init : ℚ
  Y_init : ℚ
  Z_init : ℚ
  X_final : ℚ
  Y_final : ℚ
  Z_final : ℚ
  t_finial : ℚ
  t_bias : ℚ
  method : OriMethod
  initial_orientation : Fin 3 → Fin 3 → ℚ
  final_orientation : Fin 3 → Fin 3 → ℚ
  fin_orientation : Fin 3 → ℚ
  init_orientation : Fin 3 → ℚ

/-- One entry of `self.desired_vec_fin`: the list
`[position, orientation, velocity, ang_vel]` appended by
`built_next_desired_point` (line 388). -/
structure DesiredPoint where
  position : Fin 3 → ℚ
  orientation : Fin 3 → ℚ
  velocity : Fin 3 → ℚ
  ang_vel : Fin 3 → ℚ

/-- Squared Euclidean norm of a 3-vector.  The source guards the `rotation`
branch with `np.linalg.norm(Vrot) < 1e-6`; since both sides are nonnegative
this is equivalent to `normSq Vrot < (1e-6)^2`, which is exactly representable
over `ℚ` (no square root needed). -/
def normSq (v : Fin 3 → ℚ) : ℚ := v 0 ^ 2 + v 1 ^ 2 + v 2 ^ 2

/-- `built_next_desired_point` (lines 332-389).  `sim_time` is
`self.sim.data.time`.  `Vrot` stands for the result of the external call
`T.Rotation_Matrix_To_Vector(self.initial_orientation, self.final_orientation)`
and `magnitude`, `direction` for the result of the external call
`T.Axis2Vector(Vrot)` (modelled from the spec: the magnitude and unit axis of
`Vrot`); the norm test `np.linalg.norm(Vrot) < 1e-6` is embedded as the
equivalent squared comparison.  The local `acceleration` (lines 354-360) is
computed but not part of the returned tuple; it is embedded separately as
`built_next_acceleration`. -/
def built_next_desired_point (s : TrajState) (sim_time : ℚ)
    (Vrot : Fin 3 → ℚ) (magnitude : ℚ) (direction : Fin 3 → ℚ) :
    DesiredPoint :=
  let t := sim_time - s.t_bias
  let T := s.t_finial
  let position : Fin 3 → ℚ :=
    ![x_traj s.X_init s.X_final T t,
      x_traj s.Y_init s.Y_final T t,
      x_traj s.Z_init s.Z_final T t]
  let velocity : Fin 3 → ℚ :=
    ![v_traj s.X_init s.X_final T t,
      v_traj s.Y_init s.Y_final T t,
      v_traj s.Z_init s.Z_final T t]
  let ori_pair : (Fin 3 → ℚ) × (Fin 3 → ℚ) :=
    match s.method with
    | .rotation =>
        if normSq Vrot < (1 / 1000000) ^ 2 then
          (fun i => (0 : ℚ) * (![0, 0, 0] : Fin 3 → ℚ) i,
           fun i => (0 : ℚ) * (![0, 0, 0] : Fin 3 → ℚ) i)
        else
          let magnitude_traj :=
            magnitude / T ^ 3 *
              (6 * t ^ 5 / T ^ 2 - 15 * t ^ 4 / T + 10 * t ^ 3) - magnitude
          let magnitude_vel_traj :=
            magnitude / T ^ 3 *
              (30 * t ^ 4 / T ^ 2 - 60 * t ^ 3 / T + 30 * t ^ 2)
          (fun i => magnitude_traj * direction i,
           fun i => magnitude_vel_traj * direction i)
    | .euler =>
        (fun i => x_traj (s.init_orientation i) (s.fin_orientation i) T t,
         fun i => v_traj (s.init_orientation i) (s.fin_orientation i) T t)
  { position := position
    orientation := ori_pair.1
    velocity := velocity
    ang_vel := ori_pair.2 }

/-- The local variable `acceleration` of `built_next_desired_point`
(lines 354-360), which the source computes but neither returns nor stores. -/
def built_next_acceleration (s : TrajState) (sim_time : ℚ) : Fin 3 → ℚ :=
  let t := sim_time - s.t_bias
  let T := s.t_finial
  ![a_traj s.X_init s.X_final T t,
    a_traj s.Y_init s.Y_final T t,
    a_traj s.Z_init s.Z_final T t]

/-- numpy's `np.clip(x, lo, hi)`: `min (max x lo) hi` (lower bound applied
first). -/
def np_clip (x lo hi : ℚ) : ℚ := min (max x lo) hi

/-- The four bound attributes read by `scale_action`
(`self.input_min`, `self.input_max`, `self.output_min`, `self.output_max`),
immutable after construction.  Arrays act element-wise, so one component is
embedded. -/
structure ActionCfg where
  input_min : ℚ
  input_max : ℚ
  output_min : ℚ
  output_max : ℚ

/-- The three attributes cached together by `scale_action` on first use
(`self.action_scale`, `self.action_input_transform`,
`self.action_output_transform`, lines 118-121; the source sets all three
whenever `self.action_scale is None`). -/
structure ScaleParams where
  action_scale : ℚ
  action_input_transform : ℚ
  action_output_transform : ℚ

/-- The cache-fill computation of `scale_action` (lines 119-121):
`abs(output_max - output_min) / abs(input_max - input_min)` and the two
midpoints. -/
def computeScaleParams (cfg : ActionCfg) : ScaleParams :=
  { action_scale := |cfg.output_max - cfg.output_min| / |cfg.input_max - cfg.input_min|
    action_input_transform := (cfg.input_max + cfg.input_min) / 2
    action_output_transform := (cfg.output_max + cfg.output_min) / 2 }

/-- `scale_action` (lines 106-125): fills the cache when `action_scale` is
`None`, clips the action to `[input_min, input_max]`, then applies the affine
transform.  Returns the transformed action together with the cache state. -/
def scale_action (cfg : ActionCfg) (cache : Option ScaleParams) (action : ℚ) :
    ℚ × Option ScaleParams :=
  let p := match cache with
    | none => computeScaleParams cfg
    | some p => p
  let a := np_clip action cfg.input_min cfg.input_max
  ((a - p.action_input_transform) * p.action_scale + p.action_output_transform,
   some p)

/-- The affine transform of the specification, stated independently of the
cache: subtract the input midpoint, multiply by the range ratio, add the
output midpoint.  Used to compare `scale_action` against the spec's
clamp-then-scale description. -/
def affineTransform (cfg : ActionCfg) (a : ℚ) : ℚ :=
  (a - (cfg.input_max + cfg.input_min) / 2) *
      (|cfg.output_max - cfg.output_min| / |cfg.input_max - cfg.input_min|) +
    (cfg.output_max + cfg.output_min) / 2

/-- `clip_torques` (lines 212-222): `np.clip(torques, actuator_min,
actuator_max)`, embedded element-wise. -/
def clip_torques (actuator_min actuator_max torques : ℚ) : ℚ :=
  np_clip torques actuator_min actuator_max

/-- The second time derivative of `sBlend`:
`s''(t) = 120 t^3 / T^5 - 180 t^2 / T^4 + 60 t / T^3`. -/
def sBlendDeriv2 (T t : ℚ) : ℚ :=
  120 * t ^ 3 / T ^ 5 - 180 * t ^ 2 / T ^ 4 + 60 * t / T ^ 3

/-- The via-point dictionary passed to `built_min_jerk_traj`: position keys
`'p0'/'p1'` and orientation keys `'o0'/'o1'`, selected by
`'p' + str(self.switch)` and `'o' + str(self.switch)` (line 303-304). -/
structure ViaPoint where
  p : Fin 2 → Fin 3 → ℚ
  o : Fin 2 → Fin 3 → Fin 3 → ℚ

/-- numpy's `np.round` on one entry: round to the nearest integer, with ties
going to the nearest even integer (banker's rounding), over exact
arithmetic. -/
def np_round (q : ℚ) : ℚ :=
  if q - (⌊q⌋ : ℚ) < 1 / 2 then (⌊q⌋ : ℚ)
  else if 1 / 2 < q - (⌊q⌋ : ℚ) then (⌊q⌋ : ℚ) + 1
  else if ⌊q⌋ % 2 = 0 then (⌊q⌋ : ℚ) else (⌊q⌋ : ℚ) + 1

/-- `built_min_jerk_traj` (lines 297-330).  `switch` is `self.switch`, `hist`
is `self.desired_vec_fin`, `site_xpos`/`site_xmat` are the backend
end-effector site position and orientation matrix, and `mat2euler` stands for
the external `T.mat2euler`.  When `switch = 1` with an empty history the
source raises `IndexError` on `self.desired_vec_fin[-1]`, embedded as `none`.
Attributes the source does not assign on a branch (the `euler`-only
`fin_orientation`/`init_orientation` under the `rotation` method) keep their
previous values from `s`, matching Python attribute mutation. -/
def built_min_jerk_traj (s : TrajState) (switch : Fin 2)
    (hist : List DesiredPoint) (site_xpos : Fin 3 → ℚ)
    (site_xmat : Fin 3 → Fin 3 → ℚ)
    (mat2euler : (Fin 3 → Fin 3 → ℚ) → Fin 3 → ℚ)
    (t_finial t_bias : ℚ) (via_point : ViaPoint) : Option TrajState :=
  let pos_fi := via_point.p switch
  let final_o : Fin 3 → Fin 3 → ℚ := fun i j => np_round (via_point.o switch i j)
  if switch = 1 then
    match hist.getLast? with
    | none => none
    | some lastp =>
        some { s with
          final_orientation := final_o
          initial_orientation := site_xmat
          fin_orientation :=
            match s.method with
            | .euler => mat2euler final_o
            | .rotation => s.fin_orientation
          init_orientation :=
            match s.method with
            | .euler => lastp.orientation
            | .rotation => s.init_orientation
          X_init := lastp.position 0
          Y_init := lastp.position 1
          Z_init := site_xpos 2
          X_final := pos_fi 0
          Y_final := pos_fi 1
          Z_final := pos_fi 2
          t_finial := t_finial
          t_bias := t_bias }
  else
    some { s with
      final_orientation := final_o
      initial_orientation := site_xmat
      fin_orientation :=
        match s.method with
        | .euler => mat2euler final_o
        | .rotation => s.fin_orientation
      init_orientation :=
        match s.method with
        | .euler => mat2euler site_xmat
        | .rotation => s.init_orientation
      X_init := site_xpos 0
      Y_init := site_xpos 1
      Z_init := site_xpos 2
      X_final := pos_fi 0
      Y_final := pos_fi 1
      Z_final := pos_fi 2
      t_finial := t_finial
      t_bias := t_bias }

/-- The simulation-backend quantities read by `update` after `sim.forward()`
(lines 141-157): site position/orientation/velocities for the end-effector
site, raw joint position/velocity arrays, the two site Jacobians (already
reshaped to three rows), and the full joint-space mass matrix. -/
structure Backend where
  site_xpos : Fin 3 → ℚ
  site_xmat : Fin 3 → Fin 3 → ℚ
  site_xvelp : Fin 3 → ℚ
  site_xvelr : Fin 3 → ℚ
  qpos : Nat → ℚ
  qvel : Nat → ℚ
  jacp : Fin 3 → Nat → ℚ
  jacr : Fin 3 → Nat → ℚ
  fullM : Nat → Nat → ℚ

/-- The cached robot-state attributes of `Controller` written by `update`
(lines 143-162), together with the immutable index sets and the
`new_update` dirty flag. -/
structure CtrlState where
  qpos_index : List Nat
  qvel_index : List Nat
  ee_pos : Fin 3 → ℚ
  ee_ori_mat : Fin 3 → Fin 3 → ℚ
  ee_pos_vel : Fin 3 → ℚ
  ee_ori_vel : Fin 3 → ℚ
  joint_pos : List ℚ
  joint_vel : List ℚ
  J_pos : List (List ℚ)
  J_ori : List (List ℚ)
  J_full : List (List ℚ)
  mass_matrix : List (List ℚ)
  new_update : Bool

/-- `update` (lines 127-162): when the dirty flag is set or `force` is true,
re-reads every cached quantity from the backend (restricting joint data,
Jacobian columns, and the mass matrix to the controlled index sets, and
stacking the two Jacobians into `J_full`) and clears the dirty flag;
otherwise does nothing. -/
def update (s : CtrlState) (force : Bool) (b : Backend) : CtrlState :=
  if s.new_update || force then
    { s with
      ee_pos := b.site_xpos
      ee_ori_mat := b.site_xmat
      ee_pos_vel := b.site_xvelp
      ee_ori_vel := b.site_xvelr
      joint_pos := s.qpos_index.map b.qpos
      joint_vel := s.qvel_index.map b.qvel
      J_pos := (List.finRange 3).map (fun r => s.qvel_index.map (b.jacp r))
      J_ori := (List.finRange 3).map (fun r => s.qvel_index.map (b.jacr r))
      J_full := (List.finRange 3).map (fun r => s.qvel_index.map (b.jacp r)) ++
        (List.finRange 3).map (fun r => s.qvel_index.map (b.jacr r))
      mass_matrix :=
        s.qvel_index.map (fun i => s.qvel_index.map (fun j => b.fullM i j))
      new_update := false }
  else s

/-- A Python value passed to `nums2array`: a string, a single number, or an
iterable of numbers. -/
inductive PyVal where
  | str (s : String)
  | num (q : ℚ)
  | arr (xs : List ℚ)

/-- `nums2array` (lines 230-249): rejects strings first
(`isinstance(nums, str)`, which fires before the `Iterable` test since Python
strings are iterable), passes any other iterable through `np.array`
unchanged, and broadcasts a plain number via `np.ones(dim) * nums`. -/
def nums2array : PyVal → Nat → Except String (List ℚ)
  | .str _, _ =>
      .error "Error: Only numeric inputs are supported for this function, nums2array!"
  | .arr xs, _ => .ok xs
  | .num q, dim => .ok (List.replicate dim q)

/-- A concrete controller cache state with a cleared dirty flag. -/
def exCtrl : CtrlState :=
  { qpos_index := [0, 1], qvel_index := [0, 1]
    ee_pos := fun _ => 0, ee_ori_mat := fun _ _ => 0
    ee_pos_vel := fun _ => 0, ee_ori_vel := fun _ => 0
    joint_pos := [0, 0], joint_vel := [0, 0]
    J_pos := [], J_ori := [], J_full := [], mass_matrix := []
    new_update := false }

/-- A concrete backend snapshot. -/
def exBackend : Backend :=
  { site_xpos := fun _ => 1, site_xmat := fun _ _ => 2
    site_xvelp := fun _ => 3, site_xvelr := fun _ => 4
    qpos := fun _ => 5, qvel := fun _ => 6
    jacp := fun _ _ => 7, jacr := fun _ _ => 8
    fullM := fun _ _ => 9 }

/-- A concrete trajectory state used to instantiate boundary theorems. -/
def exState1 : TrajState :=
  { X_init := 0, Y_init := 1, Z_init := 2
    X_final := 3, Y_final := 4, Z_final := 5
    t_finial := 2, t_bias := 7
    method := .euler
    initial_orientation := fun _ _ => 0
    final_orientation := fun _ _ => 0
    fin_orientation := fun _ => 0
    init_orientation := fun _ => 0 }

/-- A concrete bound configuration with distinct input and output ranges
(input range `[-1, 1]`, output range `[-2, 2]`). -/
def exCfg : ActionCfg :=
  { input_min := -1, input_max := 1, output_min := -2, output_max := 2 }

/-- A concrete trajectory state configured for the `rotation` method. -/
def exRotState : TrajState :=
  { X_init := 0, Y_init := 0, Z_init := 0
    X_final := 0, Y_final := 0, Z_final := 0
    t_finial := 2, t_bias := 0
    method := .rotation
    initial_orientation := fun _ _ => 0
    final_orientation := fun _ _ => 0
    fin_orientation := fun _ => 0
    init_orientation := fun _ => 0 }

/-- A concrete trajectory state from position `0` to `1` on the X axis over
duration `1` starting at simulation time `0`. -/
def exState10 : TrajState :=
  { X_init := 0, Y_init := 0, Z_init := 0
    X_final := 1, Y_final := 0, Z_final := 0
    t_finial := 1, t_bias := 0
    method := .euler
    initial_orientation := fun _ _ => 0
    final_orientation := fun _ _ => 0
    fin_orientation := fun _ => 0
    init_orientation := fun _ => 0 }

/-- A concrete via point whose orientation entries are the non-integer value
`1/2` on the diagonal. -/
def exVia : ViaPoint :=
  { p := fun _ => ![1, 2, 3]
    o := fun _ i j => if i = j then (1 : ℚ) / 2 else 0 }

/-- A concrete backend site position. -/
def exXp : Fin 3 → ℚ := ![10, 11, 12]

/-- A concrete backend site orientation matrix. -/
def exXm : Fin 3 → Fin 3 → ℚ := fun _ _ => 0

/-- A concrete stand-in for the external `mat2euler`. -/
def exM2e : (Fin 3 → Fin 3 → ℚ) → Fin 3 → ℚ := fun _ _ => 0

/-- A concrete last evaluated trajectory point. -/
def exLast : DesiredPoint :=
  { position := ![20, 21, 22], orientation := ![23, 24, 25]
    velocity := fun _ => 0, ang_vel := fun _ => 0 }

/-- The result of `built_min_jerk_traj` on `exState1` with `switch = 0` and an
empty history. -/
def exBuildOut : TrajState :=
  { exState1 with
    final_orientation := fun i j => np_round (exVia.o 0 i j)
    initial_orientation := exXm
    fin_orientation := exM2e (fun i j => np_round (exVia.o 0 i j))
    init_orientation := exM2e exXm
    X_init := exXp 0, Y_init := exXp 1, Z_init := exXp 2
    X_final := exVia.p 0 0, Y_final := exVia.p 0 1, Z_final := exVia.p 0 2
    t_finial := 1, t_bias := 0 }

/-- The result of `built_min_jerk_traj` on `exState1` with `switch = 1` and
history `[exLast]`. -/
def exBuild1 : TrajState :=
  { exState1 with
    final_orientation := fun i j => np_round (exVia.o 1 i j)
    initial_orientation := exXm
    fin_orientation := exM2e (fun i j => np_round (exVia.o 1 i j))
    init_orientation := exLast.orientation
    X_init := exLast.position 0, Y_init := exLast.position 1, Z_init := exXp 2
    X_final := exVia.p 1 0, Y_final := exVia.p 1 1, Z_final := exVia.p 1 2
    t_finial := 1, t_bias := 0 }

/-- The result of `built_min_jerk_traj` on `exState1` with `switch = 0` and
history `[exLast]`. -/
def exBuild0 : TrajState :=
  { exState1 with
    final_orientation := fun i j => np_round (exVia.o 0 i j)
    initial_orientation := exXm
    fin_orientation := exM2e (fun i j => np_round (exVia.o 0 i j))
    init_orientation := exM2e exXm
    X_init := exXp 0, Y_init := exXp 1, Z_init := exXp 2
    X_final := exVia.p 0 0, Y_final := exVia.p 0 1, Z_final := exVia.p 0 2
    t_finial := 1, t_bias := 0 }

end BaseController

namespace BaseController

lemma x_traj_at_zero (init fin T : ℚ) : x_traj init fin T 0 = init := by
  simp [x_traj]

lemma v_traj_at_zero (init fin T : ℚ) : v_traj init fin T 0 = 0 := by
  simp [v_traj]

lemma a_traj_at_zero (init fin T : ℚ) : a_traj init fin T 0 = 0 := by
  simp [a_traj]

lemma x_traj_at_T (init fin T : ℚ) (hT : T ≠ 0) : x_traj init fin T T = fin := by
  field_simp [x_traj]
  ring

lemma v_traj_at_T (init fin T : ℚ) (hT : T ≠ 0) : v_traj init fin T T = 0 := by
  have h2 : T ^ 2 ≠ 0 := pow_ne_zero 2 hT
  rw [v_traj, div_mul_eq_mul_div, div_eq_iff (pow_ne_zero 3 hT)]
  field_simp
  ring

lemma a_traj_at_T (init fin T : ℚ) (hT : T ≠ 0) : a_traj init fin T T = 0 := by
  rw [a_traj, div_mul_eq_mul_div, div_eq_iff (pow_ne_zero 3 hT)]
  field_simp
  ring

/-- C1: for every initial/final position 3-vector and every duration `T > 0`,
the position trajectory of `built_next_desired_point` has position = init,
velocity = 0, acceleration = 0 at elapsed time `t = 0` (simulation time
`t_bias`), and position = final, velocity = 0, acceleration = 0 at `t = T`
(simulation time `t_bias + T`), exactly over exact arithmetic. -/
theorem built_next_desired_point_boundary (s : TrajState)
    (Vrot : Fin 3 → ℚ) (m : ℚ) (d : Fin 3 → ℚ) (hT : 0 < s.t_finial) :
    (built_next_desired_point s s.t_bias Vrot m d).position =
      ![s.X_init, s.Y_init, s.Z_init] ∧
    (built_next_desired_point s s.t_bias Vrot m d).velocity = ![0, 0, 0] ∧
    built_next_acceleration s s.t_bias = ![0, 0, 0] ∧
    (built_next_desired_point s (s.t_bias + s.t_finial) Vrot m d).position =
      ![s.X_final, s.Y_final, s.Z_final] ∧
    (built_next_desired_point s (s.t_bias + s.t_finial) Vrot m d).velocity =
      ![0, 0, 0] ∧
    built_next_acceleration s (s.t_bias + s.t_finial) = ![0, 0, 0] := by
  have hT0 : s.t_finial ≠ 0 := ne_of_gt hT
  have ht0 : s.t_bias - s.t_bias = 0 := by ring
  have htT : s.t_bias + s.t_finial - s.t_bias = s.t_finial := by ring
  refine ⟨?_, ?_, ?_, ?_, ?_, ?_⟩ <;>
    · funext i
      fin_cases i <;>
        simp only [built_next_desired_point, built_next_acceleration, ht0, htT,
          x_traj_at_zero, v_traj_at_zero, a_traj_at_zero,
          x_traj_at_T _ _ _ hT0, v_traj_at_T _ _ _ hT0, a_traj_at_T _ _ _ hT0,
          Matrix.cons_val_zero, Matrix.cons_val_one, Matrix.head_cons,
          Matrix.cons_val_two, Matrix.tail_cons]

/-- Witness for C1 at a concrete trajectory state. -/
theorem built_next_desired_point_boundary_witness :
    0 < exState1.t_finial ∧
    ((built_next_desired_point exState1 exState1.t_bias
        (fun _ => 0) 0 (fun _ => 0)).position =
      ![exState1.X_init, exState1.Y_init, exState1.Z_init] ∧
    (built_next_desired_point exState1 exState1.t_bias
        (fun _ => 0) 0 (fun _ => 0)).velocity = ![0, 0, 0] ∧
    built_next_acceleration exState1 exState1.t_bias = ![0, 0, 0] ∧
    (built_next_desired_point exState1 (exState1.t_bias + exState1.t_finial)
        (fun _ => 0) 0 (fun _ => 0)).position =
      ![exState1.X_final, exState1.Y_final, exState1.Z_final] ∧
    (built_next_desired_point exState1 (exState1.t_bias + exState1.t_finial)
        (fun _ => 0) 0 (fun _ => 0)).velocity = ![0, 0, 0] ∧
    built_next_acceleration exState1 (exState1.t_bias + exState1.t_finial) =
      ![0, 0, 0]) :=
  ⟨by norm_num [exState1],
   built_next_desired_point_boundary exState1 (fun _ => 0) 0 (fun _ => 0)
     (by norm_num [exState1])⟩

lemma np_clip_mono (lo hi : ℚ) {x y : ℚ} (h : x ≤ y) :
    np_clip x lo hi ≤ np_clip y lo hi :=
  min_le_min (max_le_max h le_rfl) le_rfl

lemma np_clip_of_mem (x lo hi : ℚ) (h1 : lo ≤ x) (h2 : x ≤ hi) :
    np_clip x lo hi = x := by
  unfold np_clip
  rw [max_eq_left h1, min_eq_left h2]

/-- C2: for a non-degenerate input range and an ordered output range,
`scale_action` is monotonic, maps `input_min` to `output_min`, `input_max` to
`output_max`, the input midpoint to the output midpoint, and on every input
equals the affine transform applied to the input clipped to
`[input_min, input_max]` (clamp-then-scale order). -/
theorem scale_action_spec (cfg : ActionCfg)
    (hin : cfg.input_min < cfg.input_max)
    (hout : cfg.output_min ≤ cfg.output_max) :
    (∀ x y : ℚ, x ≤ y → (scale_action cfg none x).1 ≤ (scale_action cfg none y).1) ∧
    (scale_action cfg none cfg.input_min).1 = cfg.output_min ∧
    (scale_action cfg none cfg.input_max).1 = cfg.output_max ∧
    (scale_action cfg none ((cfg.input_min + cfg.input_max) / 2)).1 =
      (cfg.output_min + cfg.output_max) / 2 ∧
    (∀ x : ℚ, (scale_action cfg none x).1 =
      affineTransform cfg (np_clip x cfg.input_min cfg.input_max)) := by
  have hIne : cfg.input_max - cfg.input_min ≠ 0 := ne_of_gt (sub_pos.2 hin)
  have hIabs : |cfg.input_max - cfg.input_min| = cfg.input_max - cfg.input_min :=
    abs_of_pos (sub_pos.2 hin)
  have hOabs : |cfg.output_max - cfg.output_min| = cfg.output_max - cfg.output_min :=
    abs_of_nonneg (sub_nonneg.2 hout)
  refine ⟨?_, ?_, ?_, ?_, ?_⟩
  · intro x y hxy
    have hs : 0 ≤ |cfg.output_max - cfg.output_min| / |cfg.input_max - cfg.input_min| :=
      div_nonneg (abs_nonneg _) (abs_nonneg _)
    have hc := np_clip_mono cfg.input_min cfg.input_max hxy
    simp only [scale_action, computeScaleParams]
    have := mul_le_mul_of_nonneg_right
      (sub_le_sub_right hc ((cfg.input_max + cfg.input_min) / 2)) hs
    linarith
  · simp only [scale_action, computeScaleParams,
      np_clip_of_mem cfg.input_min cfg.input_min cfg.input_max le_rfl hin.le,
      hIabs, hOabs]
    field_simp
    ring
  · simp only [scale_action, computeScaleParams,
      np_clip_of_mem cfg.input_max cfg.input_min cfg.input_max hin.le le_rfl,
      hIabs, hOabs]
    field_simp
    ring
  · have hmem : np_clip ((cfg.input_min + cfg.input_max) / 2) cfg.input_min
        cfg.input_max = (cfg.input_min + cfg.input_max) / 2 :=
      np_clip_of_mem _ _ _ (by linarith) (by linarith)
    simp only [scale_action, computeScaleParams, hmem]
    have hz : (cfg.input_min + cfg.input_max) / 2 -
        (cfg.input_max + cfg.input_min) / 2 = 0 := by ring
    rw [hz, zero_mul, zero_add]
    ring
  · intro x
    simp only [scale_action, computeScaleParams, affineTransform]

/-- Witness for C2 at the concrete configuration `exCfg`. -/
theorem scale_action_spec_witness :
    exCfg.input_min < exCfg.input_max ∧ exCfg.output_min ≤ exCfg.output_max ∧
    ((∀ x y : ℚ, x ≤ y →
        (scale_action exCfg none x).1 ≤ (scale_action exCfg none y).1) ∧
    (scale_action exCfg none exCfg.input_min).1 = exCfg.output_min ∧
    (scale_action exCfg none exCfg.input_max).1 = exCfg.output_max ∧
    (scale_action exCfg none ((exCfg.input_min + exCfg.input_max) / 2)).1 =
      (exCfg.output_min + exCfg.output_max) / 2 ∧
    (∀ x : ℚ, (scale_action exCfg none x).1 =
      affineTransform exCfg (np_clip x exCfg.input_min exCfg.input_max))) :=
  ⟨by norm_num [exCfg], by norm_num [exCfg],
   scale_action_spec exCfg (by norm_num [exCfg]) (by norm_num [exCfg])⟩

/-- C6 counterexample: with input range `[-1, 1]` and output range `[-2, 2]`,
the in-range action `1/2` maps to `1`, and feeding the result (with the cache
produced by the first call) back into `scale_action` yields `2 ≠ 1`:
`scale_action` is not idempotent on already-in-range input. -/
theorem scale_action_not_idempotent :
    exCfg.input_min ≤ 1 / 2 ∧ (1 / 2 : ℚ) ≤ exCfg.input_max ∧
    (scale_action exCfg (scale_action exCfg none (1 / 2)).2
        (scale_action exCfg none (1 / 2)).1).1 ≠
      (scale_action exCfg none (1 / 2)).1 := by
  refine ⟨by norm_num [exCfg], by norm_num [exCfg], ?_⟩
  norm_num [scale_action, computeScaleParams, np_clip, exCfg]

/-- C6 amended: `scale_action` on in-range input is the identity (hence
idempotent) when the output range coincides with the input range; for every
in-range torque `clip_torques` is the identity; `clip_torques` applied twice
equals `clip_torques` applied once; and the only state touched by
`scale_action` is the one-time cache: a populated cache is returned unchanged,
and an empty cache is filled with `computeScaleParams`. -/
theorem scale_clip_idempotent_amended (cfg : ActionCfg) (p : ScaleParams)
    (a t amin amax : ℚ) :
    (cfg.input_min < cfg.input_max → cfg.output_min = cfg.input_min →
      cfg.output_max = cfg.input_max → cfg.input_min ≤ a → a ≤ cfg.input_max →
      (scale_action cfg none a).1 = a) ∧
    (amin ≤ t → t ≤ amax → clip_torques amin amax t = t) ∧
    clip_torques amin amax (clip_torques amin amax t) =
      clip_torques amin amax t ∧
    (scale_action cfg (some p) a).2 = some p ∧
    (scale_action cfg none a).2 = some (computeScaleParams cfg) := by
  refine ⟨?_, ?_, ?_, rfl, rfl⟩
  · intro hio h1 h2 h3 h4
    have hne : |cfg.input_max - cfg.input_min| ≠ 0 :=
      ne_of_gt (abs_pos.2 (ne_of_gt (sub_pos.2 hio)))
    simp only [scale_action, computeScaleParams, np_clip_of_mem a _ _ h3 h4,
      h1, h2, div_self hne]
    ring
  · intro h1 h2
    exact np_clip_of_mem t amin amax h1 h2
  · unfold clip_torques np_clip
    rcases le_total t amin with h1 | h1 <;> rcases le_total t amax with h2 | h2 <;>
      rcases le_total amin amax with h3 | h3 <;>
      simp [max_def, min_def] <;> split_ifs <;> linarith

/-- Witness for the amended C6 at concrete values. -/
theorem scale_clip_idempotent_amended_witness :
    ((exCfg.input_min < exCfg.input_max → exCfg.output_min = exCfg.input_min →
      exCfg.output_max = exCfg.input_max → exCfg.input_min ≤ 0 →
      (0 : ℚ) ≤ exCfg.input_max → (scale_action exCfg none 0).1 = 0) ∧
    ((-3 : ℚ) ≤ 1 → (1 : ℚ) ≤ 3 → clip_torques (-3) 3 1 = 1) ∧
    clip_torques (-3) 3 (clip_torques (-3) 3 1) = clip_torques (-3) 3 1 ∧
    (scale_action exCfg (some (computeScaleParams exCfg)) 0).2 =
      some (computeScaleParams exCfg) ∧
    (scale_action exCfg none 0).2 = some (computeScaleParams exCfg)) ∧
    (-3 : ℚ) ≤ 1 ∧ (1 : ℚ) ≤ 3 ∧ clip_torques (-3) 3 1 = 1 :=
  ⟨scale_clip_idempotent_amended exCfg (computeScaleParams exCfg) 0 1 (-3) 3,
   by norm_num, by norm_num,
   (scale_clip_idempotent_amended exCfg (computeScaleParams exCfg) 0 1 (-3)
      3).2.1 (by norm_num) (by norm_num)⟩

/-- C5: when the dirty flag is clear and `force` is false, `update` leaves the
controller state unchanged (for every backend, so no backend value is
consulted); and whenever it does recompute (dirty flag set or `force` true),
the dirty flag is cleared afterwards. -/
theorem update_cache_spec (s : CtrlState) (b : Backend) (force : Bool) :
    (s.new_update = false → update s false b = s) ∧
    (s.new_update = true ∨ force = true →
      (update s force b).new_update = false) := by
  constructor
  · intro h
    simp [update, h]
  · rintro (h | h) <;> simp [update, h]

/-- Witness for C5: a clean state is returned unchanged, and a forced update
clears the flag. -/
theorem update_cache_spec_witness :
    (exCtrl.new_update = false ∧ update exCtrl false exBackend = exCtrl) ∧
    (update exCtrl true exBackend).new_update = false :=
  ⟨⟨rfl, (update_cache_spec exCtrl exBackend false).1 rfl⟩,
   (update_cache_spec exCtrl exBackend true).2 (Or.inr rfl)⟩

/-- C7: `nums2array` fails with the source's type error on every string input;
on a plain number it returns `dim` copies of that number (so
`nums2array 5 3 = [5, 5, 5]`); and on an iterable it returns the iterable
unchanged, with no validation that its length equals `dim`. -/
theorem nums2array_spec :
    (∀ (s : String) (dim : Nat), nums2array (.str s) dim =
      .error "Error: Only numeric inputs are supported for this function, nums2array!") ∧
    (∀ (q : ℚ) (dim : Nat),
      nums2array (.num q) dim = .ok (List.replicate dim q) ∧
      (List.replicate dim q).length = dim) ∧
    nums2array (.num 5) 3 = .ok [5, 5, 5] ∧
    (∀ (xs : List ℚ) (dim : Nat), nums2array (.arr xs) dim = .ok xs) ∧
    nums2array (.arr [1, 2, 3]) 7 = .ok [1, 2, 3] := by
  refine ⟨fun _ _ => rfl, fun q dim => ⟨rfl, List.length_replicate dim q⟩,
    rfl, fun _ _ => rfl, rfl⟩

lemma code_blend_eq_sBlend (m T t : ℚ) (hT : T ≠ 0) :
    m / T ^ 3 * (6 * t ^ 5 / T ^ 2 - 15 * t ^ 4 / T + 10 * t ^ 3) =
      m * sBlend T t := by
  unfold sBlend
  field_simp
  ring

lemma code_vel_blend_eq_sBlendDeriv (m T t : ℚ) (hT : T ≠ 0) :
    m / T ^ 3 * (30 * t ^ 4 / T ^ 2 - 60 * t ^ 3 / T + 30 * t ^ 2) =
      m * sBlendDeriv T t := by
  unfold sBlendDeriv
  field_simp
  ring

/-- C3: for the `rotation` method, when the relative rotation vector `Vrot`
has magnitude `m` at or above the `1e-6` threshold (`m` modelling the
magnitude output of `Axis2Vector`, so `m ≥ 0` and `m^2 = ‖Vrot‖^2`), the
orientation output of `built_next_desired_point` is the blended magnitude
`m·s(t) − m` times the axis `d`, and the angular-velocity output is
`m·s'(t)` times `d`, with `s` the quintic blend and `t = time − t_bias`. -/
theorem rotation_magnitude_blend (s : TrajState) (time : ℚ)
    (Vrot : Fin 3 → ℚ) (m : ℚ) (d : Fin 3 → ℚ)
    (hmeth : s.method = .rotation) (hT : 0 < s.t_finial)
    (hm2 : m ^ 2 = normSq Vrot) (hthr : 1 / 1000000 ≤ m) :
    (built_next_desired_point s time Vrot m d).orientation =
      (fun i => (m * sBlend s.t_finial (time - s.t_bias) - m) * d i) ∧
    (built_next_desired_point s time Vrot m d).ang_vel =
      (fun i => m * sBlendDeriv s.t_finial (time - s.t_bias) * d i) := by
  have hT0 : s.t_finial ≠ 0 := ne_of_gt hT
  have hbr : ¬ normSq Vrot < (1 / 1000000 : ℚ) ^ 2 := by
    rw [← hm2]
    exact not_lt.2 (pow_le_pow_left₀ (by norm_num) hthr 2)
  constructor <;> funext i <;>
    simp only [built_next_desired_point, hmeth, if_neg hbr,
      code_blend_eq_sBlend m s.t_finial (time - s.t_bias) hT0,
      code_vel_blend_eq_sBlendDeriv m s.t_finial (time - s.t_bias) hT0]

/-- Witness for C3 at a concrete rotation-method state with `Vrot = (1,0,0)`,
magnitude `1`, axis `(1,0,0)`. -/
theorem rotation_magnitude_blend_witness :
    exRotState.method = .rotation ∧ 0 < exRotState.t_finial ∧
    (1 : ℚ) ^ 2 = normSq ![1, 0, 0] ∧ (1 / 1000000 : ℚ) ≤ 1 ∧
    (built_next_desired_point exRotState 1 ![1, 0, 0] 1 ![1, 0, 0]).orientation =
      (fun i => (1 * sBlend exRotState.t_finial (1 - exRotState.t_bias) - 1) *
        (![1, 0, 0] : Fin 3 → ℚ) i) :=
  ⟨rfl, by norm_num [exRotState], by norm_num [normSq], by norm_num,
   (rotation_magnitude_blend exRotState 1 ![1, 0, 0] 1 ![1, 0, 0] rfl
      (by norm_num [exRotState]) (by norm_num [normSq]) (by norm_num)).1⟩

/-- C4: for the `rotation` method, when `‖Vrot‖ < 1e-6` (embedded as the
equivalent `‖Vrot‖² < (1e-6)²`; in particular when the two orientation
matrices are identical, so `Vrot = 0`), the orientation delta and angular
velocity returned by `built_next_desired_point` are exactly zero for every
queried time, and the result does not depend on the `Axis2Vector` outputs
`magnitude`/`direction` at all — the degenerate-axis division is never
reached. -/
theorem rotation_degenerate_zero (s : TrajState) (time : ℚ)
    (Vrot : Fin 3 → ℚ) (m : ℚ) (d : Fin 3 → ℚ)
    (hmeth : s.method = .rotation)
    (hdeg : normSq Vrot < (1 / 1000000 : ℚ) ^ 2) :
    (built_next_desired_point s time Vrot m d).orientation = (fun _ => 0) ∧
    (built_next_desired_point s time Vrot m d).ang_vel = (fun _ => 0) ∧
    (∀ (m' : ℚ) (d' : Fin 3 → ℚ),
      built_next_desired_point s time Vrot m' d' =
        built_next_desired_point s time Vrot m d) := by
  refine ⟨?_, ?_, ?_⟩
  · funext i
    simp only [built_next_desired_point, hmeth, if_pos hdeg]
    exact zero_mul _
  · funext i
    simp only [built_next_desired_point, hmeth, if_pos hdeg]
    exact zero_mul _
  · intro m' d'
    simp only [built_next_desired_point, hmeth, if_pos hdeg]

/-- Witness for C4 at a concrete rotation-method state with `Vrot = 0`. -/
theorem rotation_degenerate_zero_witness :
    exRotState.method = .rotation ∧
    normSq ![0, 0, 0] < (1 / 1000000 : ℚ) ^ 2 ∧
    (built_next_desired_point exRotState 1 ![0, 0, 0] 5 ![1, 0, 0]).orientation =
      (fun _ => 0) ∧
    (built_next_desired_point exRotState 1 ![0, 0, 0] 5 ![1, 0, 0]).ang_vel =
      (fun _ => 0) :=
  ⟨rfl, by norm_num [normSq],
   (rotation_degenerate_zero exRotState 1 ![0, 0, 0] 5 ![1, 0, 0] rfl
      (by norm_num [normSq])).1,
   (rotation_degenerate_zero exRotState 1 ![0, 0, 0] 5 ![1, 0, 0] rfl
      (by norm_num [normSq])).2.1⟩

/-- C8: chained case (`switch = 1`, non-empty history): the new segment's
initial X and Y come from the last evaluated point and Z from the backend,
and under the `euler` method the initial orientation comes from the last
evaluated point; non-chained case (`switch = 0`): all three position
components come from the backend site position and the `euler` initial
orientation from `mat2euler` of the backend site orientation matrix. -/
theorem min_jerk_traj_continuity (s : TrajState) (hist : List DesiredPoint)
    (lastp : DesiredPoint) (xp : Fin 3 → ℚ) (xm : Fin 3 → Fin 3 → ℚ)
    (m2e : (Fin 3 → Fin 3 → ℚ) → Fin 3 → ℚ) (tf tb : ℚ) (via : ViaPoint)
    (s1 s0 : TrajState)
    (hlast : hist.getLast? = some lastp)
    (h1 : built_min_jerk_traj s 1 hist xp xm m2e tf tb via = some s1)
    (h0 : built_min_jerk_traj s 0 hist xp xm m2e tf tb via = some s0) :
    (s1.X_init = lastp.position 0 ∧ s1.Y_init = lastp.position 1 ∧
      s1.Z_init = xp 2 ∧
      (s.method = .euler → s1.init_orientation = lastp.orientation)) ∧
    (s0.X_init = xp 0 ∧ s0.Y_init = xp 1 ∧ s0.Z_init = xp 2 ∧
      (s.method = .euler → s0.init_orientation = m2e xm)) := by
  simp only [built_min_jerk_traj, hlast] at h1 h0
  rw [if_pos trivial] at h1
  rw [if_neg (by decide : ¬ (0 : Fin 2) = 1)] at h0
  simp only [Option.some.injEq] at h1 h0
  subst h1
  subst h0
  refine ⟨⟨rfl, rfl, rfl, fun hm => ?_⟩, ⟨rfl, rfl, rfl, fun hm => ?_⟩⟩ <;>
    simp [hm]

/-- Witness for C8 on a concrete chained and non-chained build. -/
theorem min_jerk_traj_continuity_witness :
    ([exLast].getLast? = some exLast) ∧
    built_min_jerk_traj exState1 1 [exLast] exXp exXm exM2e 1 0 exVia =
      some exBuild1 ∧
    built_min_jerk_traj exState1 0 [exLast] exXp exXm exM2e 1 0 exVia =
      some exBuild0 ∧
    ((exBuild1.X_init = exLast.position 0 ∧ exBuild1.Y_init = exLast.position 1 ∧
      exBuild1.Z_init = exXp 2 ∧
      (exState1.method = .euler → exBuild1.init_orientation = exLast.orientation)) ∧
    (exBuild0.X_init = exXp 0 ∧ exBuild0.Y_init = exXp 1 ∧
      exBuild0.Z_init = exXp 2 ∧
      (exState1.method = .euler → exBuild0.init_orientation = exM2e exXm))) :=
  ⟨rfl, rfl, rfl,
   min_jerk_traj_continuity exState1 [exLast] exLast exXp exXm exM2e 1 0 exVia
     exBuild1 exBuild0 rfl rfl rfl⟩

lemma np_round_intCast (k : ℤ) : np_round (k : ℚ) = (k : ℚ) := by
  unfold np_round
  rw [Int.floor_intCast, sub_self]
  norm_num

lemma np_round_isInt (q : ℚ) : ∃ k : ℤ, np_round q = (k : ℚ) := by
  unfold np_round
  split_ifs
  · exact ⟨⌊q⌋, rfl⟩
  · exact ⟨⌊q⌋ + 1, by push_cast; ring⟩
  · exact ⟨⌊q⌋, rfl⟩
  · exact ⟨⌊q⌋ + 1, by push_cast; ring⟩

/-- C9: `built_min_jerk_traj` stores as the segment's final orientation the
element-wise `np.round` of the supplied via-point orientation matrix; entries
that are integers are stored unchanged, and every non-integer entry is stored
as a different value than the one supplied. -/
theorem final_orientation_rounded (s : TrajState) (sw : Fin 2)
    (hist : List DesiredPoint) (xp : Fin 3 → ℚ) (xm : Fin 3 → Fin 3 → ℚ)
    (m2e : (Fin 3 → Fin 3 → ℚ) → Fin 3 → ℚ) (tf tb : ℚ) (via : ViaPoint)
    (s' : TrajState)
    (h : built_min_jerk_traj s sw hist xp xm m2e tf tb via = some s') :
    s'.final_orientation = (fun i j => np_round (via.o sw i j)) ∧
    (∀ i j, (∃ k : ℤ, via.o sw i j = (k : ℚ)) →
      s'.final_orientation i j = via.o sw i j) ∧
    (∀ i j, (¬ ∃ k : ℤ, via.o sw i j = (k : ℚ)) →
      s'.final_orientation i j ≠ via.o sw i j) := by
  have hfo : s'.final_orientation = fun i j => np_round (via.o sw i j) := by
    unfold built_min_jerk_traj at h
    split at h
    · cases hl : hist.getLast? with
      | none => rw [hl] at h; exact absurd h (by simp)
      | some lastp =>
          rw [hl] at h
          simp only [Option.some.injEq] at h
          subst h
          rfl
    · simp only [Option.some.injEq] at h
      subst h
      rfl
  refine ⟨hfo, ?_, ?_⟩
  · rintro i j ⟨k, hk⟩
    simp only [hfo]
    rw [hk]
    exact np_round_intCast k
  · intro i j hni
    simp only [hfo]
    intro hcon
    rcases np_round_isInt (via.o sw i j) with ⟨k, hk⟩
    exact hni ⟨k, by rw [← hcon, hk]⟩

/-- Witness for C9 on a concrete build whose via-point orientation has
non-integer entries. -/
theorem final_orientation_rounded_witness :
    built_min_jerk_traj exState1 0 [] exXp exXm exM2e 1 0 exVia =
      some exBuildOut ∧
    exBuildOut.final_orientation = (fun i j => np_round (exVia.o 0 i j)) :=
  ⟨rfl,
   (final_orientation_rounded exState1 0 [] exXp exXm exM2e 1 0 exVia
      exBuildOut rfl).1⟩

lemma x_traj_eq_sBlend (init fin T t : ℚ) (hT : T ≠ 0) :
    x_traj init fin T t = init + (fin - init) * sBlend T t := by
  unfold x_traj sBlend
  field_simp
  ring

lemma v_traj_eq_sBlendDeriv (init fin T t : ℚ) (hT : T ≠ 0) :
    v_traj init fin T t = (fin - init) * sBlendDeriv T t := by
  unfold v_traj sBlendDeriv
  field_simp
  ring

lemma a_traj_eq_sBlendDeriv2 (init fin T t : ℚ) (hT : T ≠ 0) :
    a_traj init fin T t = (fin - init) * sBlendDeriv2 T t := by
  unfold a_traj sBlendDeriv2
  field_simp
  ring

/-- C10: `built_next_desired_point` does not clamp the elapsed time
`t = time − t_bias` to `[0, t_final]`: for every queried time, also beyond
`t_final` or before `0`, the position, velocity, acceleration, and
orientation outputs are the polynomial laws evaluated at that `t` — the
position laws component-wise, the `euler` orientation/angular-velocity laws,
the non-degenerate `rotation` magnitude laws, or the constant-zero degenerate
`rotation` branch; in particular, on the concrete segment `exState10` (0 to 1
over duration 1) queried at `t = 2`, the position is not held at the final
value and the velocity is not held at zero. -/
theorem no_time_clamp (s : TrajState) (time : ℚ) (Vrot : Fin 3 → ℚ)
    (m : ℚ) (d : Fin 3 → ℚ) (hT : 0 < s.t_finial) :
    (∀ i, (built_next_desired_point s time Vrot m d).position i =
      ![s.X_init, s.Y_init, s.Z_init] i +
        (![s.X_final, s.Y_final, s.Z_final] i - ![s.X_init, s.Y_init, s.Z_init] i) *
          sBlend s.t_finial (time - s.t_bias)) ∧
    (∀ i, (built_next_desired_point s time Vrot m d).velocity i =
      (![s.X_final, s.Y_final, s.Z_final] i - ![s.X_init, s.Y_init, s.Z_init] i) *
        sBlendDeriv s.t_finial (time - s.t_bias)) ∧
    (∀ i, built_next_acceleration s time i =
      (![s.X_final, s.Y_final, s.Z_final] i - ![s.X_init, s.Y_init, s.Z_init] i) *
        sBlendDeriv2 s.t_finial (time - s.t_bias)) ∧
    (s.method = .euler → ∀ i,
      (built_next_desired_point s time Vrot m d).orientation i =
        s.init_orientation i + (s.fin_orientation i - s.init_orientation i) *
          sBlend s.t_finial (time - s.t_bias)) ∧
    (s.method = .euler → ∀ i,
      (built_next_desired_point s time Vrot m d).ang_vel i =
        (s.fin_orientation i - s.init_orientation i) *
          sBlendDeriv s.t_finial (time - s.t_bias)) ∧
    (s.method = .rotation → ¬ normSq Vrot < (1 / 1000000 : ℚ) ^ 2 → ∀ i,
      (built_next_desired_point s time Vrot m d).orientation i =
        (m * sBlend s.t_finial (time - s.t_bias) - m) * d i) ∧
    (s.method = .rotation → ¬ normSq Vrot < (1 / 1000000 : ℚ) ^ 2 → ∀ i,
      (built_next_desired_point s time Vrot m d).ang_vel i =
        m * sBlendDeriv s.t_finial (time - s.t_bias) * d i) ∧
    (s.method = .rotation → normSq Vrot < (1 / 1000000 : ℚ) ^ 2 → ∀ i,
      (built_next_desired_point s time Vrot m d).orientation i = 0 ∧
      (built_next_desired_point s time Vrot m d).ang_vel i = 0) ∧
    (built_next_desired_point exState10 2 Vrot m d).position 0 ≠
      exState10.X_final ∧
    (built_next_desired_point exState10 2 Vrot m d).velocity 0 ≠ 0 := by
  have hT0 : s.t_finial ≠ 0 := ne_of_gt hT
  refine ⟨?_, ?_, ?_, ?_, ?_, ?_, ?_, ?_, ?_, ?_⟩
  · intro i
    fin_cases i <;>
      simp [built_next_desired_point, x_traj_eq_sBlend _ _ _ _ hT0]
  · intro i
    fin_cases i <;>
      simp [built_next_desired_point, v_traj_eq_sBlendDeriv _ _ _ _ hT0]
  · intro i
    fin_cases i <;>
      simp [built_next_acceleration, a_traj_eq_sBlendDeriv2 _ _ _ _ hT0]
  · intro hm i
    simp only [built_next_desired_point, hm, x_traj_eq_sBlend _ _ _ _ hT0]
  · intro hm i
    simp only [built_next_desired_point, hm, v_traj_eq_sBlendDeriv _ _ _ _ hT0]
  · intro hm hnd i
    simp only [built_next_desired_point, hm, if_neg hnd,
      code_blend_eq_sBlend m s.t_finial (time - s.t_bias) hT0]
  · intro hm hnd i
    simp only [built_next_desired_point, hm, if_neg hnd,
      code_vel_blend_eq_sBlendDeriv m s.t_finial (time - s.t_bias) hT0]
  · intro hm hd i
    constructor <;>
      · simp only [built_next_desired_point, hm, if_pos hd]
        exact zero_mul _
  · norm_num [built_next_desired_point, x_traj, exState10]
  · norm_num [built_next_desired_point, v_traj, exState10]

/-- Witness for C10 at the concrete segment `exState10` (an `euler`-method
state), exercising the duration hypothesis, the `euler` orientation law, and
the concrete extrapolation facts. -/
theorem no_time_clamp_witness :
    0 < exState10.t_finial ∧ exState10.method = .euler ∧
    ((built_next_desired_point exState10 2 (fun _ => 0) 0 (fun _ => 0)).orientation 0 =
      exState10.init_orientation 0 +
        (exState10.fin_orientation 0 - exState10.init_orientation 0) *
          sBlend exState10.t_finial (2 - exState10.t_bias)) ∧
    (built_next_desired_point exState10 2 (fun _ => 0) 0 (fun _ => 0)).position 0 ≠
      exState10.X_final ∧
    (built_next_desired_point exState10 2 (fun _ => 0) 0 (fun _ => 0)).velocity 0 ≠
      0 :=
  ⟨by norm_num [exState10], rfl,
   (no_time_clamp exState10 2 (fun _ => 0) 0 (fun _ => 0)
      (by norm_num [exState10])).2.2.2.1 rfl 0,
   (no_time_clamp exState10 2 (fun _ => 0) 0 (fun _ => 0)
      (by norm_num [exState10])).2.2.2.2.2.2.2.2.1,
   (no_time_clamp exState10 2 (fun _ => 0) 0 (fun _ => 0)
      (by norm_num [exState10])).2.2.2.2.2.2.2.2.2⟩

end BaseController
